import Mathlib

/-!
Verification of the gabagool_bot hedging strategy core.

The Python sources (src/main.py, src/v2/main.py, src/t.py) are embedded
shallowly: Python floats are modelled as exact rationals (ℚ), the mutable
`MarketState` object as an immutable structure threaded through the step
functions, and the fallible external order service as an explicit
`OrderResp` argument describing the outcome of each dispatch attempt
(exception raised, falsy response, or truthy response that may or may not
carry an `orderID` field).
-/

namespace Gabagool

/-- TARGET_SPREAD constant, src/main.py line 41 and src/v2/main.py line 41. -/
def TARGET_SPREAD : ℚ := 2/100

/-- BET_SIZE_USDC constant, src/main.py line 42 and src/v2/main.py line 42. -/
def BET_SIZE_USDC : ℚ := 10

/-- MAX_EXPOSURE constant, src/main.py line 43 and src/v2/main.py line 43. -/
def MAX_EXPOSURE : ℚ := 500

/-- Python's round-half-to-even of a rational to an integer. -/
def round_half_even (q : ℚ) : ℤ :=
  let f := q.floor
  let r := q - f
  if r < 1/2 then f
  else if 1/2 < r then f + 1
  else if f % 2 = 0 then f else f + 1

/-- Python's round(x, 2): round to two decimal places, ties to even. -/
def round2 (q : ℚ) : ℚ := (round_half_even (q * 100) : ℚ) / 100

/-- The quote and position fields of `MarketState`
    (src/main.py lines 55-92, src/v2/main.py lines 57-95); the string and
    datetime fields play no role in the claims and are omitted. -/
structure MarketState where
  ask_yes : ℚ
  ask_no : ℚ
  qty_yes : ℚ
  cost_yes : ℚ
  qty_no : ℚ
  cost_no : ℚ
  total_trades_session : ℕ
deriving DecidableEq, Repr

/-- MarketState.avg_yes (src/main.py line 82): `cost_yes / qty_yes if qty_yes
    else 0.0`; Python float truthiness means "nonzero". -/
def avg_yes (s : MarketState) : ℚ :=
  if s.qty_yes ≠ 0 then s.cost_yes / s.qty_yes else 0

/-- MarketState.avg_no (src/main.py line 85). -/
def avg_no (s : MarketState) : ℚ :=
  if s.qty_no ≠ 0 then s.cost_no / s.qty_no else 0

/-- MarketState.locked_profit (src/main.py lines 87-92, identical in
    src/v2/main.py lines 90-95). -/
def locked_profit (s : MarketState) : ℚ :=
  let common := min s.qty_yes s.qty_no
  if common = 0 then 0
  else common - (avg_yes s * common + avg_no s * common)

/-- The two outcomes of a binary market. -/
inductive Side
  | yes
  | no
deriving DecidableEq, Repr

/-- Outcome of one dispatch attempt to the external order service, as seen by
    `place_order`'s `try` block: an exception anywhere in the block, a falsy
    response from `post_order`, or a truthy response that either carries an
    explicit `orderID` success field or does not. -/
inductive OrderResp
  | exn
  | falsy
  | truthy (has_orderID : Bool)
deriving DecidableEq, Repr

/-- A proposed buy emitted by the decision step: the call
    `place_order(token, price, side)`; the token id is determined by the side. -/
structure OrderIntent where
  side : Side
  price : ℚ
deriving DecidableEq, Repr

/-- Bot.place_order (src/main.py lines 291-321), identical to
    MarketRunner.place_order (src/v2/main.py lines 233-260):
    compute `size = round(BET_SIZE_USDC / price, 2)`, return unchanged if
    `size < 1` or if `cost_yes + cost_no > MAX_EXPOSURE`; otherwise dispatch
    and, `if resp:` (truthy, whether or not an orderID is present), add the
    fill to the bought side's quantity and cost basis. Exceptions are caught
    and leave the state unchanged. -/
def place_order (s : MarketState) (price : ℚ) (side : Side) (resp : OrderResp) :
    MarketState :=
  let size := round2 (BET_SIZE_USDC / price)
  if size < 1 then s
  else if s.cost_yes + s.cost_no > MAX_EXPOSURE then s
  else
    match resp with
    | .exn => s
    | .falsy => s
    | .truthy _ =>
      let cost := size * price
      match side with
      | .yes =>
        { s with qty_yes := s.qty_yes + size, cost_yes := s.cost_yes + cost,
                 total_trades_session := s.total_trades_session + 1 }
      | .no =>
        { s with qty_no := s.qty_no + size, cost_no := s.cost_no + cost,
                 total_trades_session := s.total_trades_session + 1 }

/-- The guard conditions under which `place_order` reaches the dispatch call
    (neither the minimum-size early return nor the exposure early return
    fires). -/
def admitted (s : MarketState) (price : ℚ) : Bool :=
  !(round2 (BET_SIZE_USDC / price) < 1) && !(s.cost_yes + s.cost_no > MAX_EXPOSURE)

/-- The strategy block of Bot.run (src/main.py lines 413-431): when both asks
    are known (`> 0`) and `pair_cost < 1.0 - TARGET_SPREAD`, place one order
    for the cheaper side (YES on ties). Returns the new state and the list of
    intents emitted (the `place_order` calls made). -/
def tick_v1 (s : MarketState) (resp : OrderResp) : MarketState × List OrderIntent :=
  if 0 < s.ask_yes ∧ 0 < s.ask_no then
    let pair_cost := s.ask_yes + s.ask_no
    if pair_cost < 1 - TARGET_SPREAD then
      if s.ask_yes ≤ s.ask_no then
        (place_order s s.ask_yes Side.yes resp, [OrderIntent.mk Side.yes s.ask_yes])
      else
        (place_order s s.ask_no Side.no resp, [OrderIntent.mk Side.no s.ask_no])
    else (s, [])
  else (s, [])

/-- The strategy block of MarketRunner.run_market_loop
    (src/v2/main.py lines 328-343): when both asks are known, the YES
    legging rule, then the NO legging rule, then the zero-position
    directional entry. `place_order` is awaited in between and mutates the
    state, so each later check reads the state as left by the earlier call;
    `r_yes`, `r_no`, `r_entry` are the dispatch outcomes of the respective
    calls. -/
def tick_v2 (s : MarketState) (r_yes r_no r_entry : OrderResp) :
    MarketState × List OrderIntent :=
  if 0 < s.ask_yes ∧ 0 < s.ask_no then
    let p1 :=
      if 0 < s.qty_no ∧ s.ask_yes + avg_no s < 1 - TARGET_SPREAD then
        (place_order s s.ask_yes Side.yes r_yes, [OrderIntent.mk Side.yes s.ask_yes])
      else (s, [])
    let s1 := p1.1
    let p2 :=
      if 0 < s1.qty_yes ∧ s1.ask_no + avg_yes s1 < 1 - TARGET_SPREAD then
        (place_order s1 s1.ask_no Side.no r_no, [OrderIntent.mk Side.no s1.ask_no])
      else (s1, [])
    let s2 := p2.1
    let p3 :=
      if s2.qty_yes = 0 ∧ s2.qty_no = 0 then
        if s2.ask_yes < 45/100 then
          (place_order s2 s2.ask_yes Side.yes r_entry,
           [OrderIntent.mk Side.yes s2.ask_yes])
        else if s2.ask_no < 45/100 then
          (place_order s2 s2.ask_no Side.no r_entry,
           [OrderIntent.mk Side.no s2.ask_no])
        else (s2, [])
      else (s2, [])
    (p3.1, p1.2 ++ p2.2 ++ p3.2)
  else (s, [])

/-- The market state as left by the YES-leg of a v2 tick (src/v2/main.py
    lines 331-333): if that rule fired, the state after its awaited
    place_order call; otherwise the tick's input state. The NO-leg check on
    lines 335-337 reads exactly this state. -/
def tick_v2_mid (s : MarketState) (r_yes : OrderResp) : MarketState :=
  if 0 < s.qty_no ∧ s.ask_yes + avg_no s < 1 - TARGET_SPREAD then
    place_order s s.ask_yes Side.yes r_yes
  else s

/-- Bot.get_15min_window_epoch (src/main.py lines 173-178), identical to
    get_15min_window_epoch in src/t.py lines 54-58 and src/v2/main.py lines
    159-163: `(now // 900) * 900 + offset_windows * 900`. -/
def get_15min_window_epoch (now : ℕ) (offset_windows : ℤ) : ℤ :=
  let window_size : ℕ := 900
  let current_window_start := (now / window_size) * window_size
  (current_window_start : ℤ) + offset_windows * (window_size : ℤ)

/-- The window-start part of the computation: `(now // 900) * 900`. -/
def window_start (now : ℕ) : ℕ := (now / 900) * 900

/-- One attempted fill: the price and side passed to `place_order` and the
    dispatch outcome. -/
structure FillAttempt where
  price : ℚ
  side : Side
  resp : OrderResp
deriving DecidableEq, Repr

/-- A sequence of `place_order` calls against the same market state, as the
    live loop performs them. -/
def run_fills (s : MarketState) (evts : List FillAttempt) : MarketState :=
  evts.foldl (fun st e => place_order st e.price e.side e.resp) s

/-- A `FillAttempt` together with the wall-clock time at which the live loop
    makes the call. The code consults no clock when admitting an order, so
    the timestamp is carried but never read. -/
structure TimedFillAttempt where
  time : ℚ
  price : ℚ
  side : Side
  resp : OrderResp
deriving DecidableEq, Repr

/-- Process a timed sequence of `place_order` calls. -/
def run_timed (s : MarketState) (evts : List TimedFillAttempt) : MarketState :=
  evts.foldl (fun st e => place_order st e.price e.side e.resp) s

/-- Componentwise order on the position fields of two states. -/
def ledger_le (a b : MarketState) : Prop :=
  a.qty_yes ≤ b.qty_yes ∧ a.cost_yes ≤ b.cost_yes ∧
  a.qty_no ≤ b.qty_no ∧ a.cost_no ≤ b.cost_no

/-- All four position fields are non-negative. -/
def ledger_nonneg (a : MarketState) : Prop :=
  0 ≤ a.qty_yes ∧ 0 ≤ a.cost_yes ∧ 0 ≤ a.qty_no ∧ 0 ≤ a.cost_no

/-- The state after `reset()`: every quote and position field zero. -/
def reset_state : MarketState :=
  { ask_yes := 0, ask_no := 0, qty_yes := 0, cost_yes := 0,
    qty_no := 0, cost_no := 0, total_trades_session := 0 }

/-- The state of spec example: 50 NO shares at cost basis 24 (average 0.48),
    YES quoted at 0.49, NO at 0.50. -/
def legging_state : MarketState :=
  { ask_yes := 49/100, ask_no := 1/2, qty_yes := 0, cost_yes := 0,
    qty_no := 50, cost_no := 24, total_trades_session := 0 }

/-- The spec's locked-profit example position: 100 shares of each outcome at
    cost bases 48 and 47. -/
def full_hedge_state : MarketState :=
  { ask_yes := 0, ask_no := 0, qty_yes := 100, cost_yes := 48,
    qty_no := 100, cost_no := 47, total_trades_session := 0 }

/-- Rounding a non-positive rational to two decimals stays non-positive. -/
lemma round_half_even_nonpos {q : ℚ} (h : q ≤ 0) : round_half_even q ≤ 0 := by
  have hf : (q.floor : ℚ) ≤ q := Rat.le_floor.mp le_rfl
  have hf0 : q.floor ≤ 0 := by exact_mod_cast hf.trans h
  unfold round_half_even
  dsimp only
  split_ifs with h1 h2 h3
  · exact hf0
  · rcases lt_or_eq_of_le hf0 with hlt | heq
    · omega
    · exfalso
      rw [heq] at h2
      simp only [Int.cast_zero, sub_zero] at h2
      linarith
  · have hq : q - q.floor = 1/2 := le_antisymm (not_lt.mp h2) (not_lt.mp h1)
    have : (q.floor : ℚ) = q - 1/2 := by linarith
    have hneg : (q.floor : ℚ) < 0 := by
      rw [this]; linarith
    have : q.floor < 0 := by exact_mod_cast hneg
    omega
  · have hq : q - q.floor = 1/2 := le_antisymm (not_lt.mp h2) (not_lt.mp h1)
    have : (q.floor : ℚ) = q - 1/2 := by linarith
    have hneg : (q.floor : ℚ) < 0 := by
      rw [this]; linarith
    have : q.floor < 0 := by exact_mod_cast hneg
    omega

/-- Rounding a non-positive rational to two decimals stays non-positive. -/
lemma round2_nonpos {q : ℚ} (h : q ≤ 0) : round2 q ≤ 0 := by
  unfold round2
  have : round_half_even (q * 100) ≤ 0 :=
    round_half_even_nonpos (by nlinarith)
  have : (round_half_even (q * 100) : ℚ) ≤ 0 := by exact_mod_cast this
  linarith

/-- If the computed size clears the minimum-size guard then the price was
    strictly positive. -/
lemma price_pos_of_size_ok {p : ℚ} (h : ¬ round2 (BET_SIZE_USDC / p) < 1) :
    0 < p := by
  by_contra hp
  push_neg at hp
  have hdiv : BET_SIZE_USDC / p ≤ 0 := by
    rcases lt_or_eq_of_le hp with hlt | heq
    · exact le_of_lt (div_neg_of_pos_of_neg (by norm_num [BET_SIZE_USDC]) hlt)
    · rw [heq, div_zero]
  exact h ((round2_nonpos hdiv).trans_lt (by norm_num))

/-- place_order never touches the quote fields. -/
lemma place_order_ask (s : MarketState) (p : ℚ) (sd : Side) (r : OrderResp) :
    (place_order s p sd r).ask_yes = s.ask_yes ∧
    (place_order s p sd r).ask_no = s.ask_no := by
  unfold place_order
  dsimp only
  split_ifs <;> cases r <;> cases sd <;> simp

/-- A YES order never touches the NO position. -/
lemma place_order_yes_keeps_no (s : MarketState) (p : ℚ) (r : OrderResp) :
    (place_order s p Side.yes r).qty_no = s.qty_no ∧
    (place_order s p Side.yes r).cost_no = s.cost_no := by
  unfold place_order
  dsimp only
  split_ifs <;> cases r <;> simp

/-- A NO order never touches the YES position. -/
lemma place_order_no_keeps_yes (s : MarketState) (p : ℚ) (r : OrderResp) :
    (place_order s p Side.no r).qty_yes = s.qty_yes ∧
    (place_order s p Side.no r).cost_yes = s.cost_yes := by
  unfold place_order
  dsimp only
  split_ifs <;> cases r <;> simp

/-- Every place_order call leaves the position ledger componentwise
    no smaller: if the guards pass and the response is truthy, a size of at
    least 1 is added to one quantity and a non-negative size·price to that
    side's cost basis; every other path leaves the state unchanged. -/
lemma place_order_ledger_le (s : MarketState) (p : ℚ) (sd : Side) (r : OrderResp) :
    ledger_le s (place_order s p sd r) := by
  unfold place_order ledger_le
  dsimp only
  split_ifs with h1 h2
  · exact ⟨le_refl _, le_refl _, le_refl _, le_refl _⟩
  · exact ⟨le_refl _, le_refl _, le_refl _, le_refl _⟩
  · have hsize : 1 ≤ round2 (BET_SIZE_USDC / p) := not_lt.mp h1
    have hp : 0 < p := price_pos_of_size_ok h1
    have hcost : 0 ≤ round2 (BET_SIZE_USDC / p) * p :=
      mul_nonneg (by linarith) (le_of_lt hp)
    cases r <;> cases sd <;>
      simp <;>
      constructor <;> linarith

/-- place_order preserves non-negativity of the ledger. -/
lemma place_order_nonneg {s : MarketState} (h : ledger_nonneg s) (p : ℚ)
    (sd : Side) (r : OrderResp) : ledger_nonneg (place_order s p sd r) := by
  obtain ⟨h1, h2, h3, h4⟩ := h
  obtain ⟨g1, g2, g3, g4⟩ := place_order_ledger_le s p sd r
  exact ⟨h1.trans g1, h2.trans g2, h3.trans g3, h4.trans g4⟩

/-- ledger_le is reflexive. -/
lemma ledger_le_refl (s : MarketState) : ledger_le s s :=
  ⟨le_refl _, le_refl _, le_refl _, le_refl _⟩

/-- ledger_le is transitive. -/
lemma ledger_le_trans {a b c : MarketState} (h1 : ledger_le a b)
    (h2 : ledger_le b c) : ledger_le a c :=
  ⟨h1.1.trans h2.1, h1.2.1.trans h2.2.1, h1.2.2.1.trans h2.2.2.1,
   h1.2.2.2.trans h2.2.2.2⟩

/-- A whole sequence of fills leaves the ledger componentwise no smaller. -/
lemma run_fills_ledger_le (evts : List FillAttempt) :
    ∀ s : MarketState, ledger_le s (run_fills s evts) := by
  induction evts with
  | nil => exact fun s => ledger_le_refl s
  | cons e rest ih =>
    intro s
    exact ledger_le_trans (place_order_ledger_le s e.price e.side e.resp)
      (ih (place_order s e.price e.side e.resp))

/-- A sequence of fills preserves non-negativity of the ledger. -/
lemma run_fills_nonneg (evts : List FillAttempt) :
    ∀ s : MarketState, ledger_nonneg s → ledger_nonneg (run_fills s evts) := by
  induction evts with
  | nil => exact fun s h => h
  | cons e rest ih =>
    intro s h
    exact ih _ (place_order_nonneg h e.price e.side e.resp)

/-- Splitting a fill sequence splits the fold. -/
lemma run_fills_append (s : MarketState) (a b : List FillAttempt) :
    run_fills s (a ++ b) = run_fills (run_fills s a) b := by
  unfold run_fills
  exact List.foldl_append _ _ a b

/-- Claim C9 (confirmed): the window arithmetic computes
    floor(now/900)·900 + k·900; for k = 0 the result w satisfies
    w ≤ now < w + 900, and window_start is idempotent on its own output. -/
theorem C9_window_epoch (now : ℕ) (k : ℤ) :
    get_15min_window_epoch now k = ((now / 900 : ℕ) : ℤ) * 900 + k * 900 ∧
    window_start now ≤ now ∧
    now < window_start now + 900 ∧
    window_start (window_start now) = window_start now ∧
    get_15min_window_epoch now 0 = (window_start now : ℤ) := by
  refine ⟨?_, ?_, ?_, ?_, ?_⟩
  · unfold get_15min_window_epoch
    push_cast
    ring
  · exact Nat.div_mul_le_self now 900
  · unfold window_start
    omega
  · unfold window_start
    omega
  · unfold get_15min_window_epoch window_start
    simp

/-- Claim C7 (confirmed): locked_profit equals
    common − (avg_yes·common + avg_no·common) with common = min of the two
    quantities and avg = cost/quantity, and is 0 when common = 0; at
    quantities 100/100 and costs 48/47 it equals exactly 5. -/
theorem C7_locked_profit (s : MarketState)
    (hy : 0 ≤ s.qty_yes) (hn : 0 ≤ s.qty_no) :
    locked_profit s =
      (if min s.qty_yes s.qty_no = 0 then 0
       else min s.qty_yes s.qty_no -
         (s.cost_yes / s.qty_yes * min s.qty_yes s.qty_no +
          s.cost_no / s.qty_no * min s.qty_yes s.qty_no)) ∧
    locked_profit full_hedge_state = 5 := by
  constructor
  · unfold locked_profit
    by_cases hc : min s.qty_yes s.qty_no = 0
    · rw [if_pos hc, if_pos hc]
    · rw [if_neg hc, if_neg hc]
      have hpos : 0 < min s.qty_yes s.qty_no :=
        lt_of_le_of_ne (le_min hy hn) (Ne.symm hc)
      have hyne : s.qty_yes ≠ 0 :=
        ne_of_gt (lt_of_lt_of_le hpos (min_le_left _ _))
      have hnne : s.qty_no ≠ 0 :=
        ne_of_gt (lt_of_lt_of_le hpos (min_le_right _ _))
      rw [avg_yes, avg_no, if_pos hyne, if_pos hnne]
  · norm_num [locked_profit, avg_yes, avg_no, full_hedge_state, min_def]

/-- Witness for C7 at the spec's concrete position. -/
theorem C7_locked_profit_witness :
    locked_profit full_hedge_state = 5 :=
  (C7_locked_profit full_hedge_state
    (by norm_num [full_hedge_state]) (by norm_num [full_hedge_state])).2

/-- Claim C6 (confirmed): with either ask equal to 0 the whole decision step
    is skipped in both variants: the state is untouched and no intent is
    produced. -/
theorem C6_unknown_quote (s : MarketState) (r r1 r2 r3 : OrderResp)
    (hz : s.ask_yes = 0 ∨ s.ask_no = 0) :
    tick_v1 s r = (s, []) ∧ tick_v2 s r1 r2 r3 = (s, []) := by
  have hnot : ¬ (0 < s.ask_yes ∧ 0 < s.ask_no) := by
    rcases hz with h | h <;> rw [h] <;> simp
  constructor
  · unfold tick_v1
    rw [if_neg hnot]
  · unfold tick_v2
    rw [if_neg hnot]

/-- Witness for C6 at the freshly reset state, whose asks are both 0. -/
theorem C6_unknown_quote_witness :
    tick_v1 reset_state OrderResp.falsy = (reset_state, []) ∧
    tick_v2 reset_state OrderResp.falsy OrderResp.falsy OrderResp.falsy =
      (reset_state, []) :=
  C6_unknown_quote reset_state OrderResp.falsy OrderResp.falsy OrderResp.falsy
    OrderResp.falsy (Or.inl rfl)

/-- Claim C5 counterexample: with the total cost basis exactly equal to
    MAX_EXPOSURE (500), price 0.5 and a truthy response, place_order is NOT
    rejected: it submits and records the fill (the code's check is the strict
    `> MAX_EXPOSURE`, so equality passes the guard), contradicting the
    claimed rejection at equality. -/
theorem C5_counterexample :
    ({ reset_state with cost_yes := 500 } : MarketState).cost_yes +
      ({ reset_state with cost_yes := 500 } : MarketState).cost_no =
      MAX_EXPOSURE ∧
    (place_order { reset_state with cost_yes := 500 } (1/2) Side.yes
        (OrderResp.truthy true)).qty_yes = 20 ∧
    ({ reset_state with cost_yes := 500 } : MarketState).qty_yes = 0 := by
  refine ⟨by norm_num [reset_state, MAX_EXPOSURE], ?_, rfl⟩
  norm_num [place_order, round2, round_half_even, Rat.floor, BET_SIZE_USDC,
    MAX_EXPOSURE, reset_state]

/-- Claim C5 amended (corrected): an intent is rejected — no submission, no
    ledger mutation — when the total cost basis strictly exceeds
    max_exposure_usdc; at exactly max_exposure_usdc it is still admitted. -/
theorem C5_exposure_cap (s : MarketState) (p : ℚ) (sd : Side) (r : OrderResp)
    (h : MAX_EXPOSURE < s.cost_yes + s.cost_no) :
    place_order s p sd r = s := by
  unfold place_order
  dsimp only
  split_ifs <;> rfl

/-- Witness for the amended C5 at cost basis 501 > 500. -/
theorem C5_exposure_cap_witness :
    place_order { reset_state with cost_yes := 501 } (1/2) Side.yes
      (OrderResp.truthy true) = { reset_state with cost_yes := 501 } :=
  C5_exposure_cap { reset_state with cost_yes := 501 } (1/2) Side.yes
    (OrderResp.truthy true) (by norm_num [reset_state, MAX_EXPOSURE])

/-- Claim C3 (code_bug): exceptions and falsy responses leave the ledger
    unchanged, but a truthy response WITHOUT any explicit success indicator
    (has_orderID = false) still mutates the ledger — the code checks only
    `if resp:`, not an explicit success field, contrary to the claim. -/
theorem C3_truthy_mutates :
    (∀ (s : MarketState) (p : ℚ) (sd : Side),
        place_order s p sd OrderResp.exn = s ∧
        place_order s p sd OrderResp.falsy = s) ∧
    (place_order reset_state (1/2) Side.yes (OrderResp.truthy false)).qty_yes
      = 20 ∧
    reset_state.qty_yes = 0 := by
  refine ⟨fun s p sd => ?_, ?_, rfl⟩
  · unfold place_order
    dsimp only
    constructor <;> split_ifs <;> rfl
  · norm_num [place_order, round2, round_half_even, Rat.floor, BET_SIZE_USDC,
      MAX_EXPOSURE, reset_state]

/-- Claim C1 counterexample: with ask_yes = 0.50 and ask_no = 0.48 the pair
    cost 0.98 is below the claimed 0.99 threshold, yet the decision step of
    src/main.py emits NO intent at all (its test is the strict
    `pair_cost < 1 - TARGET_SPREAD = 0.98`), let alone intents for both
    outcomes. -/
theorem C1_counterexample :
    ((1 : ℚ)/2 + 12/25 < 99/100) ∧
    (tick_v1 { reset_state with ask_yes := 1/2, ask_no := 12/25 }
        (OrderResp.truthy true)).2 = [] := by
  constructor
  · norm_num
  · norm_num [tick_v1, TARGET_SPREAD, reset_state]

/-- Claim C1 amended (corrected): when both asks are known and
    ask_yes + ask_no < 1 − TARGET_SPREAD (0.98; there is no 0.99 pure-arb
    threshold in the code), the decision step emits exactly one buy intent,
    for the cheaper outcome (YES on ties) — never both. -/
theorem C1_cheaper_side (s : MarketState) (r : OrderResp)
    (hy : 0 < s.ask_yes) (hn : 0 < s.ask_no)
    (hpc : s.ask_yes + s.ask_no < 1 - TARGET_SPREAD) :
    (tick_v1 s r).2 =
      (if s.ask_yes ≤ s.ask_no then [OrderIntent.mk Side.yes s.ask_yes]
       else [OrderIntent.mk Side.no s.ask_no]) := by
  unfold tick_v1
  rw [if_pos ⟨hy, hn⟩]
  dsimp only
  rw [if_pos hpc]
  split_ifs <;> rfl

/-- Witness for the amended C1 at asks 0.40/0.40: one BUY-YES intent. -/
theorem C1_cheaper_side_witness :
    (tick_v1 { reset_state with ask_yes := 2/5, ask_no := 2/5 }
        (OrderResp.truthy true)).2 = [OrderIntent.mk Side.yes (2/5)] := by
  have h := C1_cheaper_side { reset_state with ask_yes := 2/5, ask_no := 2/5 }
    (OrderResp.truthy true) (by norm_num [reset_state])
    (by norm_num [reset_state]) (by norm_num [reset_state, TARGET_SPREAD])
  rw [h]
  norm_num [reset_state]

/-- Claim C4 counterexample: two successful order attempts 0.1 s apart
    (timestamps 0 and 1/10, well under the claimed 0.5 s interval) are BOTH
    admitted: both submissions go out, both fills are recorded (trade count 2,
    quantity 40 after two clips of 20), refuting the claimed rejection of the
    second intent. -/
theorem C4_counterexample :
    ((1 : ℚ)/10 - 0 < 1/2) ∧
    (run_timed reset_state
      [TimedFillAttempt.mk 0 (1/2) Side.yes (OrderResp.truthy true),
       TimedFillAttempt.mk (1/10) (1/2) Side.yes (OrderResp.truthy true)]
      ).total_trades_session = 2 ∧
    (run_timed reset_state
      [TimedFillAttempt.mk 0 (1/2) Side.yes (OrderResp.truthy true),
       TimedFillAttempt.mk (1/10) (1/2) Side.yes (OrderResp.truthy true)]
      ).qty_yes = 40 := by
  refine ⟨by norm_num, ?_, ?_⟩ <;>
    norm_num [run_timed, place_order, round2, round_half_even, Rat.floor,
      BET_SIZE_USDC, MAX_EXPOSURE, reset_state]

/-- Claim C4 amended (corrected): the code has no debounce at all — admission
    never consults the clock, so a timed sequence of order attempts behaves
    exactly as the untimed sequence, and intents 0.1 s apart are treated
    exactly like intents 0.6 s apart (both admitted, subject to the size and
    exposure caps only). -/
theorem C4_no_debounce :
    (∀ (s : MarketState) (evts : List TimedFillAttempt),
        run_timed s evts =
          run_fills s (evts.map fun e => FillAttempt.mk e.price e.side e.resp)) ∧
    run_timed reset_state
        [TimedFillAttempt.mk 0 (1/2) Side.yes (OrderResp.truthy true),
         TimedFillAttempt.mk (1/10) (1/2) Side.yes (OrderResp.truthy true)] =
      run_timed reset_state
        [TimedFillAttempt.mk 0 (1/2) Side.yes (OrderResp.truthy true),
         TimedFillAttempt.mk (6/10) (1/2) Side.yes (OrderResp.truthy true)] ∧
    (run_timed reset_state
        [TimedFillAttempt.mk 0 (1/2) Side.yes (OrderResp.truthy true),
         TimedFillAttempt.mk (6/10) (1/2) Side.yes (OrderResp.truthy true)]
      ).total_trades_session = 2 := by
  refine ⟨fun s evts => ?_, ?_, ?_⟩
  · unfold run_timed run_fills
    rw [List.foldl_map]
  · rfl
  · norm_num [run_timed, place_order, round2, round_half_even, Rat.floor,
      BET_SIZE_USDC, MAX_EXPOSURE, reset_state]

/-- Claim C8 (confirmed): across any sequence of place_order calls the four
    position fields never decrease (componentwise monotone under extension of
    the fill sequence), stay non-negative from a non-negative start, and any
    call that changes the state adds at least 1 share to exactly one
    outcome's quantity. -/
theorem C8_ledger_monotone (s : MarketState) (pre post : List FillAttempt) :
    ledger_le (run_fills s pre) (run_fills s (pre ++ post)) ∧
    (ledger_nonneg s → ledger_nonneg (run_fills s pre)) ∧
    (∀ (p : ℚ) (sd : Side) (r : OrderResp),
        place_order s p sd r = s ∨
        s.qty_yes + 1 ≤ (place_order s p sd r).qty_yes ∨
        s.qty_no + 1 ≤ (place_order s p sd r).qty_no) := by
  refine ⟨?_, fun h => run_fills_nonneg pre s h, fun p sd r => ?_⟩
  · rw [run_fills_append]
    exact run_fills_ledger_le post _
  · unfold place_order
    dsimp only
    split_ifs with h1 h2
    · exact Or.inl rfl
    · exact Or.inl rfl
    · have hsize : 1 ≤ round2 (BET_SIZE_USDC / p) := not_lt.mp h1
      cases r with
      | exn => exact Or.inl rfl
      | falsy => exact Or.inl rfl
      | truthy b =>
        cases sd with
        | yes => exact Or.inr (Or.inl (by simp; linarith))
        | no => exact Or.inr (Or.inr (by simp; linarith))

/-- Witness for C8: one successful fill from the reset state leaves a
    non-negative ledger. -/
theorem C8_ledger_monotone_witness :
    ledger_nonneg (run_fills reset_state
      [FillAttempt.mk (1/2) Side.yes (OrderResp.truthy true)]) :=
  (C8_ledger_monotone reset_state
      [FillAttempt.mk (1/2) Side.yes (OrderResp.truthy true)] []).2.1
    (by norm_num [ledger_nonneg, reset_state])

/-- Claim C10 (confirmed): in the v2 variant, with both asks known and both
    held quantities zero, the tick emits exactly one directional intent:
    BUY-YES iff ask_yes < 0.45, otherwise BUY-NO iff ask_no < 0.45, and
    nothing when both asks are at least 0.45; no pair-cost or spread
    condition is involved. -/
theorem C10_directional_entry (s : MarketState) (r1 r2 r3 : OrderResp)
    (hqy : s.qty_yes = 0) (hqn : s.qty_no = 0)
    (hy : 0 < s.ask_yes) (hn : 0 < s.ask_no) :
    (tick_v2 s r1 r2 r3).2 =
      (if s.ask_yes < 45/100 then [OrderIntent.mk Side.yes s.ask_yes]
       else if s.ask_no < 45/100 then [OrderIntent.mk Side.no s.ask_no]
       else []) := by
  unfold tick_v2
  rw [if_pos ⟨hy, hn⟩]
  dsimp only
  have h1 : ¬ (0 < s.qty_no ∧ s.ask_yes + avg_no s < 1 - TARGET_SPREAD) := by
    rw [hqn]
    simp
  rw [if_neg h1]
  have h2 : ¬ (0 < s.qty_yes ∧ s.ask_no + avg_yes s < 1 - TARGET_SPREAD) := by
    rw [hqy]
    simp
  rw [if_neg h2]
  rw [if_pos ⟨hqy, hqn⟩]
  split_ifs with h3 h4 <;> simp

/-- Claim C2 counterexample: with no NO position (qty_no = 0) and asks
    0.50/0.47, the claim's effective_no falls back to ask_no, so
    ask_yes + effective_no = 0.97 < 0.98 and a BUY-YES intent is demanded;
    the v2 code emits no intent at all — its legging rule requires
    qty_no > 0, and the 0.45 entry rule does not fire either. -/
theorem C2_counterexample :
    ({ reset_state with ask_yes := 1/2, ask_no := 47/100 } : MarketState).qty_no
      = 0 ∧
    ((1 : ℚ)/2 + 47/100 < 1 - TARGET_SPREAD) ∧
    (tick_v2 { reset_state with ask_yes := 1/2, ask_no := 47/100 }
        (OrderResp.truthy true) (OrderResp.truthy true)
        (OrderResp.truthy true)).2 = [] := by
  refine ⟨rfl, by norm_num [TARGET_SPREAD], ?_⟩
  norm_num [tick_v2, avg_no, avg_yes, reset_state, TARGET_SPREAD]

/-- Claim C2 amended (corrected): in the v2 variant a legging BUY-YES intent
    at ask_yes is emitted iff qty_no > 0 and ask_yes + avg_cost(NO) < 0.98
    (no fallback to ask_no when qty_no = 0; with a flat book only the
    separate 0.45 directional entry can emit BUY-YES), and symmetrically a
    BUY-NO intent at ask_no is emitted iff, in the state as updated by the
    YES-leg fill of the same tick (tick_v2_mid), qty_yes > 0 and
    ask_no + avg_cost(YES) < 0.98 — or via the 0.45 directional entry on a
    flat book. The spec's concrete examples hold: qty_no = 50, cost_no = 24,
    ask_yes = 0.49 emits BUY-YES; ask_yes = 0.52 emits nothing. -/
theorem C2_legging (s : MarketState) (r1 r2 r3 : OrderResp)
    (hy : 0 < s.ask_yes) (hn : 0 < s.ask_no) :
    (OrderIntent.mk Side.yes s.ask_yes ∈ (tick_v2 s r1 r2 r3).2 ↔
      (0 < s.qty_no ∧ s.ask_yes + avg_no s < 1 - TARGET_SPREAD) ∨
      (s.qty_yes = 0 ∧ s.qty_no = 0 ∧ s.ask_yes < 45/100)) ∧
    (OrderIntent.mk Side.no s.ask_no ∈ (tick_v2 s r1 r2 r3).2 ↔
      (0 < (tick_v2_mid s r1).qty_yes ∧
       (tick_v2_mid s r1).ask_no + avg_yes (tick_v2_mid s r1)
         < 1 - TARGET_SPREAD) ∨
      (s.qty_yes = 0 ∧ s.qty_no = 0 ∧ ¬ s.ask_yes < 45/100 ∧
       s.ask_no < 45/100)) ∧
    (∀ ra rb rc : OrderResp,
        (tick_v2 legging_state ra rb rc).2 = [OrderIntent.mk Side.yes (49/100)]) ∧
    (∀ ra rb rc : OrderResp,
        (tick_v2 { legging_state with ask_yes := 52/100 } ra rb rc).2 = []) := by
  refine ⟨?_, ?_, ?_, ?_⟩
  · unfold tick_v2
    rw [if_pos ⟨hy, hn⟩]
    dsimp only
    by_cases h1 : 0 < s.qty_no ∧ s.ask_yes + avg_no s < 1 - TARGET_SPREAD
    · rw [if_pos h1]
      constructor
      · intro _
        exact Or.inl h1
      · intro _
        simp
    · rw [if_neg h1]
      by_cases h2 : 0 < s.qty_yes ∧ s.ask_no + avg_yes s < 1 - TARGET_SPREAD
      · rw [if_pos h2]
        have hq : (place_order s s.ask_no Side.no r2).qty_yes = s.qty_yes :=
          (place_order_no_keeps_yes s s.ask_no r2).1
        have hent : ¬ ((place_order s s.ask_no Side.no r2).qty_yes = 0 ∧
                       (place_order s s.ask_no Side.no r2).qty_no = 0) := by
          rw [hq]
          intro hcon
          exact absurd hcon.1 (ne_of_gt h2.1)
        rw [if_neg hent]
        constructor
        · intro hmem
          simp at hmem
        · intro hor
          exfalso
          rcases hor with hcase | hcase
          · exact h1 hcase
          · exact absurd hcase.1 (ne_of_gt h2.1)
      · rw [if_neg h2]
        by_cases h3 : s.qty_yes = 0 ∧ s.qty_no = 0
        · rw [if_pos h3]
          by_cases h4 : s.ask_yes < 45/100
          · rw [if_pos h4]
            constructor
            · intro _
              exact Or.inr ⟨h3.1, h3.2, h4⟩
            · intro _
              simp
          · rw [if_neg h4]
            split_ifs with h5
            · constructor
              · intro hmem
                simp at hmem
              · intro hor
                exfalso
                rcases hor with hcase | hcase
                · exact h1 hcase
                · exact h4 hcase.2.2
            · constructor
              · intro hmem
                simp at hmem
              · intro hor
                exfalso
                rcases hor with hcase | hcase
                · exact h1 hcase
                · exact h4 hcase.2.2
        · rw [if_neg h3]
          constructor
          · intro hmem
            simp at hmem
          · intro hor
            exfalso
            rcases hor with hcase | hcase
            · exact h1 hcase
            · exact h3 ⟨hcase.1, hcase.2.1⟩
  · unfold tick_v2 tick_v2_mid
    rw [if_pos ⟨hy, hn⟩]
    dsimp only
    by_cases h1 : 0 < s.qty_no ∧ s.ask_yes + avg_no s < 1 - TARGET_SPREAD
    · rw [if_pos h1, if_pos h1]
      dsimp only
      rw [(place_order_ask s s.ask_yes Side.yes r1).2]
      by_cases h2 : 0 < (place_order s s.ask_yes Side.yes r1).qty_yes ∧
          s.ask_no + avg_yes (place_order s s.ask_yes Side.yes r1)
            < 1 - TARGET_SPREAD
      · rw [if_pos h2]
        dsimp only
        have hqno : 0 < (place_order (place_order s s.ask_yes Side.yes r1)
            s.ask_no Side.no r2).qty_no := by
          have e1 : (place_order s s.ask_yes Side.yes r1).qty_no = s.qty_no :=
            (place_order_yes_keeps_no s s.ask_yes r1).1
          have e2 := (place_order_ledger_le (place_order s s.ask_yes Side.yes r1)
            s.ask_no Side.no r2).2.2.1
          rw [e1] at e2
          exact lt_of_lt_of_le h1.1 e2
        have hent : ¬ ((place_order (place_order s s.ask_yes Side.yes r1)
              s.ask_no Side.no r2).qty_yes = 0 ∧
            (place_order (place_order s s.ask_yes Side.yes r1)
              s.ask_no Side.no r2).qty_no = 0) := by
          intro hcon
          rw [hcon.2] at hqno
          exact lt_irrefl 0 hqno
        rw [if_neg hent]
        constructor
        · intro _
          exact Or.inl h2
        · intro _
          simp
      · rw [if_neg h2]
        dsimp only
        have hent : ¬ ((place_order s s.ask_yes Side.yes r1).qty_yes = 0 ∧
            (place_order s s.ask_yes Side.yes r1).qty_no = 0) := by
          intro hcon
          have e1 : (place_order s s.ask_yes Side.yes r1).qty_no = s.qty_no :=
            (place_order_yes_keeps_no s s.ask_yes r1).1
          rw [e1] at hcon
          exact absurd hcon.2 (ne_of_gt h1.1)
        rw [if_neg hent]
        constructor
        · intro hmem
          simp at hmem
        · intro hor
          exfalso
          rcases hor with hcase | hcase
          · exact h2 hcase
          · exact absurd hcase.2.1 (ne_of_gt h1.1)
    · rw [if_neg h1, if_neg h1]
      dsimp only
      by_cases h2 : 0 < s.qty_yes ∧ s.ask_no + avg_yes s < 1 - TARGET_SPREAD
      · rw [if_pos h2]
        dsimp only
        have hent : ¬ ((place_order s s.ask_no Side.no r2).qty_yes = 0 ∧
            (place_order s s.ask_no Side.no r2).qty_no = 0) := by
          rw [(place_order_no_keeps_yes s s.ask_no r2).1]
          intro hcon
          exact absurd hcon.1 (ne_of_gt h2.1)
        rw [if_neg hent]
        constructor
        · intro _
          exact Or.inl h2
        · intro _
          simp
      · rw [if_neg h2]
        dsimp only
        by_cases h3 : s.qty_yes = 0 ∧ s.qty_no = 0
        · rw [if_pos h3]
          by_cases h4 : s.ask_yes < 45/100
          · rw [if_pos h4]
            constructor
            · intro hmem
              simp at hmem
            · intro hor
              exfalso
              rcases hor with hcase | hcase
              · exact h2 hcase
              · exact hcase.2.2.1 h4
          · rw [if_neg h4]
            by_cases h5 : s.ask_no < 45/100
            · rw [if_pos h5]
              constructor
              · intro _
                exact Or.inr ⟨h3.1, h3.2, h4, h5⟩
              · intro _
                simp
            · rw [if_neg h5]
              constructor
              · intro hmem
                simp at hmem
              · intro hor
                exfalso
                rcases hor with hcase | hcase
                · exact h2 hcase
                · exact h5 hcase.2.2.2
        · rw [if_neg h3]
          constructor
          · intro hmem
            simp at hmem
          · intro hor
            exfalso
            rcases hor with hcase | hcase
            · exact h2 hcase
            · exact h3 ⟨hcase.1, hcase.2.1⟩
  · intro ra rb rc
    cases ra <;>
      norm_num [tick_v2, place_order, avg_no, avg_yes, legging_state, round2,
        round_half_even, Rat.floor, TARGET_SPREAD, BET_SIZE_USDC, MAX_EXPOSURE]
  · intro ra rb rc
    norm_num [tick_v2, avg_no, avg_yes, legging_state, TARGET_SPREAD]

/-- Witness for the amended C2 at the spec's legging position. -/
theorem C2_legging_witness :
    (tick_v2 legging_state OrderResp.falsy OrderResp.falsy OrderResp.falsy).2 =
      [OrderIntent.mk Side.yes (49/100)] :=
  (C2_legging legging_state OrderResp.falsy OrderResp.falsy OrderResp.falsy
      (by norm_num [legging_state]) (by norm_num [legging_state])).2.2.1
    OrderResp.falsy OrderResp.falsy OrderResp.falsy

/-- Witness for C10 at asks 0.40/0.60 and an empty position: one BUY-YES
    intent at 0.40. -/
theorem C10_directional_entry_witness :
    (tick_v2 { reset_state with ask_yes := 2/5, ask_no := 3/5 }
        OrderResp.falsy OrderResp.falsy OrderResp.falsy).2 =
      [OrderIntent.mk Side.yes (2/5)] := by
  have h := C10_directional_entry
    { reset_state with ask_yes := 2/5, ask_no := 3/5 }
    OrderResp.falsy OrderResp.falsy OrderResp.falsy rfl rfl
    (by norm_num [reset_state]) (by norm_num [reset_state])
  rw [h]
  norm_num [reset_state]

end Gabagool
